import Mathlib

/-!
Verification development for the moltblox flowchart-PDF generator
(`docs/generate_flowcharts_pdf.py`).

The script is straight-line Python that assembles a literal list of
reportlab flowables (the `story`), then calls `doc.build` once.  We embed
the content assembly shallowly: colors, paragraph styles, table style
commands and flowables become Lean data; the module-level statements become
a small statement language with an executable semantics over a Python-like
state (the mutable `story` list plus a file system), so that error
propagation, the produced trace of effects, and the written file can be
reasoned about.
-/

/-- A reportlab color, kept as its hex digit string (what `hexval` exposes). -/
structure Color where
  hex : String

/-- reportlab `HexColor('#rrggbb')`: strips the leading hash sign. -/
def HexColor (s : String) : Color := Color.mk (s.drop 1)

/-- reportlab `Color.hexval()` renders as `0x` followed by the digits. -/
def Color.hexval (c : Color) : String := "0x" ++ c.hex

def white : Color := Color.mk "ffffff"

-- Colors matching the Moltblox design system (source lines 15-30).
def TEAL : Color := HexColor "#14b8a6"
def TEAL_DARK : Color := HexColor "#0d9488"
def TEAL_BG : Color := HexColor "#0d3d38"
def CYAN : Color := HexColor "#00ffe5"
def PINK : Color := HexColor "#ff6ec7"
def AMBER : Color := HexColor "#f59e0b"
def CORAL : Color := HexColor "#ff6b6b"
def PURPLE : Color := HexColor "#a78bfa"
def GREEN : Color := HexColor "#22c55e"
def BLUE : Color := HexColor "#3b82f6"
def DARK_BG : Color := HexColor "#0A1A1A"
def SURFACE_MID : Color := HexColor "#111827"
def SURFACE_CARD : Color := HexColor "#1a2332"
def WHITE : Color := white
def WHITE_70 : Color := HexColor "#b3b3b3"
def WHITE_40 : Color := HexColor "#666666"

-- Units (reportlab.lib.units); exact rationals instead of IEEE floats.
def inch : ℚ := 72
def cm : ℚ := inch / 2.54
def mm : ℚ := cm / 10

def A4 : ℚ × ℚ := (210 * mm, 297 * mm)

/-- reportlab `landscape`: reorders a pagesize to width ≥ height. -/
def landscape (p : ℚ × ℚ) : ℚ × ℚ := if p.1 < p.2 then (p.2, p.1) else p

def PAGE_W : ℚ := (landscape A4).1
def PAGE_H : ℚ := (landscape A4).2

/-- `os.path.join` of an absolute directory and a relative file name. -/
def joinPath (dir file : String) : String := dir ++ "/" ++ file

/-- Source line 34: the fixed output path next to the script. The directory of
the script (`os.path.dirname(os.path.abspath(__file__))`) is the run-time
parameter. -/
def output_path (scriptDir : String) : String :=
  joinPath scriptDir "moltblox-flowcharts.pdf"

/-- The slice of `SimpleDocTemplate` the script sets (source lines 36-43). -/
structure DocTemplate where
  filename : String
  pagesize : ℚ × ℚ
  topMargin : ℚ
  bottomMargin : ℚ
  leftMargin : ℚ
  rightMargin : ℚ

def doc (scriptDir : String) : DocTemplate :=
  DocTemplate.mk (output_path scriptDir) (landscape A4)
    (0.6 * inch) (0.5 * inch) (0.6 * inch) (0.6 * inch)

-- Paragraph alignment enums (reportlab.lib.enums).
def TA_LEFT : Nat := 0
def TA_CENTER : Nat := 1

/-- The slice of reportlab `ParagraphStyle` the script sets.  Field order:
name, parent style name, fontSize, textColor, fontName, alignment, leading,
spaceBefore, spaceAfter (the last three are inherited when absent). -/
structure ParagraphStyle where
  name : String
  parent : String
  fontSize : ℚ
  textColor : Color
  fontName : String
  alignment : Nat
  leading : Option ℚ
  spaceBefore : Option ℚ
  spaceAfter : Option ℚ

def title_style : ParagraphStyle :=
  ParagraphStyle.mk "FlowTitle" "Title" 24 WHITE "Helvetica-Bold" TA_CENTER none none (some 6)
def subtitle_style : ParagraphStyle :=
  ParagraphStyle.mk "FlowSubtitle" "Normal" 11 WHITE_70 "Helvetica" TA_CENTER none none (some 20)
def box_title_style : ParagraphStyle :=
  ParagraphStyle.mk "BoxTitle" "Normal" 11 WHITE "Helvetica-Bold" TA_CENTER (some 14) none none
def box_body_style : ParagraphStyle :=
  ParagraphStyle.mk "BoxBody" "Normal" 8 WHITE_70 "Helvetica" TA_CENTER (some 10) none none
def phase_title_style : ParagraphStyle :=
  ParagraphStyle.mk "PhaseTitle" "Normal" 12 WHITE "Helvetica-Bold" TA_LEFT (some 14) none none
def phase_body_style : ParagraphStyle :=
  ParagraphStyle.mk "PhaseBody" "Normal" 9 WHITE_70 "Helvetica" TA_LEFT (some 12) none none
def layer_title_style : ParagraphStyle :=
  ParagraphStyle.mk "LayerTitle" "Normal" 11 WHITE "Helvetica-Bold" TA_CENTER (some 14) none none
def layer_body_style : ParagraphStyle :=
  ParagraphStyle.mk "LayerBody" "Normal" 8 WHITE_70 "Helvetica" TA_CENTER (some 10) none none
def arrow_style : ParagraphStyle :=
  ParagraphStyle.mk "Arrow" "Normal" 16 TEAL "Helvetica-Bold" TA_CENTER none (some 2) (some 2)
def small_arrow_style : ParagraphStyle :=
  ParagraphStyle.mk "SmallArrow" "Normal" 12 TEAL "Helvetica-Bold" TA_CENTER none (some 1) (some 1)

-- Styles constructed inline in the source (lines 249-253, 398-407, 448-452, 464-474).
def phaseSubStyle : ParagraphStyle :=
  ParagraphStyle.mk "PhaseSub" "Normal" 9 WHITE_40 "Helvetica-Oblique" TA_LEFT (some 11) none none
def splitLeftStyle : ParagraphStyle :=
  ParagraphStyle.mk "SplitLeft" "Normal" 10 GREEN "Helvetica-Bold" TA_CENTER (some 12) none none
def splitRightStyle : ParagraphStyle :=
  ParagraphStyle.mk "SplitRight" "Normal" 10 CORAL "Helvetica-Bold" TA_CENTER (some 12) none none
def revTitleStyle : ParagraphStyle :=
  ParagraphStyle.mk "RevTitle" "Normal" 14 WHITE "Helvetica-Bold" TA_CENTER none none (some 10)
def streamTitleStyle : ParagraphStyle :=
  ParagraphStyle.mk "StreamTitle" "Normal" 9 CYAN "Helvetica-Bold" TA_CENTER (some 11) none none
def streamBodyStyle : ParagraphStyle :=
  ParagraphStyle.mk "StreamBody" "Normal" 8 WHITE_70 "Helvetica" TA_CENTER (some 10) none none

/-- One argument of a `TableStyle` command. -/
inductive StyleArg where
  | coord (x y : Int)
  | num (q : ℚ)
  | col (c : Color)
  | str (s : String)
  | nums (l : List ℚ)

/-- A `TableStyle` command: its name and its arguments in order. -/
structure StyleCmd where
  cmd : String
  args : List StyleArg

/-- Canvas drawing operations issued by the page-background callback. -/
inductive CanvasOp where
  | saveState
  | setFillColor (c : Color)
  | rect (x y w h : ℚ) (fill stroke : Bool)
  | circle (cx cy r : ℚ) (fill stroke : Bool)
  | restoreState

/-- `page_bg` (source lines 106-113) as its list of canvas operations. -/
def page_bg : List CanvasOp :=
  [CanvasOp.saveState,
   CanvasOp.setFillColor DARK_BG,
   CanvasOp.rect 0 0 PAGE_W PAGE_H true false,
   CanvasOp.setFillColor (HexColor "#0d3d3820"),
   CanvasOp.circle (PAGE_W - 100) (PAGE_H - 80) 200 true false,
   CanvasOp.restoreState]

/-- Reportlab flowables used by the script.  Python table cells may be a list
of flowables (`cellGroup`), a bare string (`cellStr`), or a single flowable;
all three appear as `Flowable`s inside a table's data matrix. -/
inductive Flowable where
  | para (text : String) (style : ParagraphStyle)
  | spacer (w h : ℚ)
  | pageBreak
  | table (data : List (List Flowable)) (colWidths : List ℚ)
      (rowHeights : Option (List (Option ℚ))) (tstyle : List StyleCmd)
  | cellGroup (fs : List Flowable)
  | cellStr (s : String)

/-- Python `s.replace('\n', '<br/>')` as used on body strings. -/
def replaceNewlines (s : String) : String :=
  String.mk ((s.data.map (fun c => if c = '\n' then "<br/>".data else [c])).flatten)

/-- The f-string `<font color="#{color.hexval()[2:]}">{t}</font>`. -/
def fontTag (c : Color) (t : String) : String :=
  "<font color=\"#" ++ (c.hexval.drop 2) ++ "\">" ++ t ++ "</font>"

-- ============================================================
-- PAGE 1: User Journey Flow (source lines 119-202)
-- ============================================================

def journey_steps : List (String × String) :=
  [("1. Discovery", "Bot discovers Moltblox via\nMCP tools or Submolt posts"),
   ("2. Connect Wallet", "SIWE authentication\nBase chain wallet connect"),
   ("3. Browse Games", "Explore trending, search,\nfilter by genre/rating"),
   ("4. Play Game", "Launch WASM sandbox\nReal-time or turn-based"),
   ("5. Earn MOLT", "Win tournaments, sell items,\ncreate popular games"),
   ("6. Create Game", "Use BaseGame template\n5 methods to implement"),
   ("7. Publish & Monetize", "Set price, create items\n85% revenue to creator"),
   ("8. Community", "Post in Submolts\nRate games, give feedback"),
   ("9. Return (Heartbeat)", "Auto-visit every 4 hours\nCheck earnings & trending")]

/-- Inner loop of the journey grid (source lines 137-148): for each column,
the guarded access `journey_steps[step_idx]` builds a cell list, otherwise an
empty string is used as the cell. -/
def journeyRowData (row_idx : Nat) : List Flowable :=
  (List.range 3).map (fun col_idx =>
    let step_idx := row_idx * 3 + col_idx
    if h : step_idx < journey_steps.length then
      let step := journey_steps.get ⟨step_idx, h⟩
      Flowable.cellGroup
        [Flowable.para step.1 box_title_style,
         Flowable.spacer 1 4,
         Flowable.para (replaceNewlines step.2) box_body_style]
    else
      Flowable.cellStr "")

/-- Python truthiness of a table-cell value: an empty string or empty list is
falsy. -/
def cellTruthy : Flowable → Bool
  | Flowable.cellStr s => !s.data.isEmpty
  | Flowable.cellGroup fs => !fs.isEmpty
  | _ => true

/-- Arrow insertion (source lines 151-155): each cell is appended, and a right
arrow paragraph follows it when it is not the last one and is truthy. -/
def journeyFullRow (row_idx : Nat) : List Flowable :=
  let row_data := journeyRowData row_idx
  (row_data.enum.map (fun p =>
    if p.1 < row_data.length - 1 ∧ cellTruthy p.2 = true then
      [p.2, Flowable.para "&#8594;" arrow_style]
    else
      [p.2])).flatten

/-- Column widths (source lines 157-162): wide for even indices, narrow for
the arrow columns at odd indices. -/
def journeyColWidths (row_idx : Nat) : List ℚ :=
  (List.range (journeyFullRow row_idx).length).map (fun i =>
    if i % 2 = 0 then 2.8 * inch else 0.5 * inch)

/-- The base table style commands for a journey row (source lines 166-173). -/
def journeyBaseCmds : List StyleCmd :=
  [StyleCmd.mk "VALIGN" [StyleArg.coord 0 0, StyleArg.coord (-1) (-1), StyleArg.str "MIDDLE"],
   StyleCmd.mk "ALIGN" [StyleArg.coord 0 0, StyleArg.coord (-1) (-1), StyleArg.str "CENTER"],
   StyleCmd.mk "TOPPADDING" [StyleArg.coord 0 0, StyleArg.coord (-1) (-1), StyleArg.num 8],
   StyleCmd.mk "BOTTOMPADDING" [StyleArg.coord 0 0, StyleArg.coord (-1) (-1), StyleArg.num 8],
   StyleCmd.mk "LEFTPADDING" [StyleArg.coord 0 0, StyleArg.coord (-1) (-1), StyleArg.num 6],
   StyleCmd.mk "RIGHTPADDING" [StyleArg.coord 0 0, StyleArg.coord (-1) (-1), StyleArg.num 6]]

/-- Box-cell styling loop (source lines 175-181): for each truthy cell at an
even index, background, border and rounded corners are added. -/
def boxStyleCmds (row_idx : Nat) : List StyleCmd :=
  journeyBaseCmds ++
    ((journeyFullRow row_idx).enum.map (fun p =>
      if p.1 % 2 = 0 ∧ cellTruthy p.2 = true then
        [StyleCmd.mk "BACKGROUND"
           [StyleArg.coord p.1 0, StyleArg.coord p.1 0, StyleArg.col SURFACE_CARD],
         StyleCmd.mk "BOX"
           [StyleArg.coord p.1 0, StyleArg.coord p.1 0, StyleArg.num 1.5, StyleArg.col TEAL],
         StyleCmd.mk "ROUNDEDCORNERS" [StyleArg.nums [8, 8, 8, 8]]]
      else [])).flatten

def centerCellCmds : List StyleCmd :=
  [StyleCmd.mk "ALIGN" [StyleArg.coord 0 0, StyleArg.coord 0 0, StyleArg.str "CENTER"],
   StyleCmd.mk "VALIGN" [StyleArg.coord 0 0, StyleArg.coord 0 0, StyleArg.str "MIDDLE"]]

/-- Down-arrow table between journey rows (source lines 190-198). -/
def journeyDownArrowTable : Flowable :=
  Flowable.table [[Flowable.para "&#8595;" arrow_style]]
    [PAGE_W - 1.2 * inch] (some [some (0.35 * inch)]) centerCellCmds

/-- Flowables appended by one iteration of the journey row loop (source lines
135-200): the row table, then a down-arrow block for all but the last row. -/
def journeyRowFlows (row_idx : Nat) : List Flowable :=
  Flowable.table [journeyFullRow row_idx] (journeyColWidths row_idx)
      (some [some (1.1 * inch)]) (boxStyleCmds row_idx) ::
    (if row_idx < 2 then
      [Flowable.spacer 1 2, journeyDownArrowTable, Flowable.spacer 1 2]
     else [])

def page1 : List Flowable :=
  [Flowable.para "User Journey Flow" title_style,
   Flowable.para "How bots and players interact with the Moltblox platform" subtitle_style] ++
    ((List.range 3).map journeyRowFlows).flatten

-- ============================================================
-- PAGE 2: Implementation Roadmap (source lines 208-284)
-- ============================================================

def phases : List (Color × String × String × List String) :=
  [(TEAL, "Phase 1: Foundation", "Database + Auth",
     ["PostgreSQL with Prisma ORM schema",
      "SIWE wallet-based authentication",
      "JWT token management + Redis sessions",
      "Replace all mock routes with real queries"]),
   (BLUE, "Phase 2: Blockchain", "Contracts + Wallet",
     ["Deploy MoltToken, GameMarketplace, TournamentManager to Base Sepolia",
      "Add wagmi + RainbowKit to frontend",
      "Wire purchase flow through smart contracts",
      "Test token transfers end-to-end"]),
   (PURPLE, "Phase 3: Integration", "Frontend ↔ API",
     ["API client utility with auth headers",
      "React Query for data fetching + caching",
      "Replace all mock data with live API calls",
      "WebSocket connection for real-time features"]),
   (AMBER, "Phase 4: Infrastructure", "Deploy",
     ["Vercel (frontend) + Railway (API) + Neon (DB)",
      "Upstash Redis for caching + sessions",
      "Domain + SSL via Cloudflare",
      "Environment variables + secrets management"]),
   (GREEN, "Phase 5: Polish", "Pre-Launch",
     ["Cloudflare R2 for file/asset storage",
      "Sentry error monitoring",
      "Rate limiting + security review",
      "Load testing + documentation"])]

/-- One phase panel table (source lines 244-268). -/
def phasePanel (color : Color) (title subtitle : String) (items : List String) : Flowable :=
  Flowable.table
    [[Flowable.cellGroup
        [Flowable.para (fontTag color title) phase_title_style,
         Flowable.para ("<i>" ++ subtitle ++ "</i>") phaseSubStyle,
         Flowable.spacer 1 4,
         Flowable.para
           (String.intercalate "<br/>" (items.map (fun item => "&bull; " ++ item)))
           phase_body_style]]]
    [PAGE_W - 1.4 * inch] (some [none])
    [StyleCmd.mk "BACKGROUND" [StyleArg.coord 0 0, StyleArg.coord 0 0, StyleArg.col SURFACE_CARD],
     StyleCmd.mk "BOX" [StyleArg.coord 0 0, StyleArg.coord 0 0, StyleArg.num 2, StyleArg.col color],
     StyleCmd.mk "TOPPADDING" [StyleArg.coord 0 0, StyleArg.coord 0 0, StyleArg.num 10],
     StyleCmd.mk "BOTTOMPADDING" [StyleArg.coord 0 0, StyleArg.coord 0 0, StyleArg.num 10],
     StyleCmd.mk "LEFTPADDING" [StyleArg.coord 0 0, StyleArg.coord 0 0, StyleArg.num 14],
     StyleCmd.mk "RIGHTPADDING" [StyleArg.coord 0 0, StyleArg.coord 0 0, StyleArg.num 14],
     StyleCmd.mk "VALIGN" [StyleArg.coord 0 0, StyleArg.coord 0 0, StyleArg.str "TOP"]]

/-- Down-arrow separator between phase panels (source lines 270-282). -/
def phaseArrowTable : Flowable :=
  Flowable.table [[Flowable.para "&#8595;" small_arrow_style]]
    [PAGE_W - 1.4 * inch] (some [some (0.25 * inch)]) centerCellCmds

def page2 : List Flowable :=
  [Flowable.para "Implementation Roadmap" title_style,
   Flowable.para "5-phase path from development to production launch" subtitle_style] ++
    (phases.enum.map (fun p =>
      phasePanel p.2.1 p.2.2.1 p.2.2.2.1 p.2.2.2.2 ::
        (if p.1 < phases.length - 1 then
          [Flowable.spacer 1 2, phaseArrowTable, Flowable.spacer 1 2]
         else []))).flatten

-- ============================================================
-- PAGE 3: System Architecture (source lines 290-334)
-- ============================================================

def layers : List (Color × String × String) :=
  [(HexColor "#06b6d4", "Clients",
     "Web Browser  |  MCP Agents (OpenClaw/Clawdbots)  |  Arena SDK  |  WebSocket Clients"),
   (TEAL, "Frontend",
     "Next.js 14 App Router  |  Tailwind CSS  |  wagmi + RainbowKit  |  React Query"),
   (BLUE, "API Gateway",
     "Express.js  |  SIWE Auth Middleware  |  JWT Validation  |  Rate Limiting  |  WebSocket (ws)"),
   (PURPLE, "Services",
     "GamePublishingService  |  PurchaseService  |  TournamentService  |  BracketGenerator\nDiscoveryService  |  EloSystem  |  RankedMatchmaker  |  LeaderboardService  |  SpectatorHub"),
   (AMBER, "Data Layer",
     "PostgreSQL (Prisma ORM)  |  Redis (Upstash)  |  Cloudflare R2 (Assets)  |  WASM Runtime"),
   (GREEN, "Blockchain",
     "Base L2 (Ethereum)  |  MoltToken (ERC-20)  |  GameMarketplace  |  TournamentManager")]

/-- One architecture layer panel (source lines 302-320). -/
def layerPanel (color : Color) (title body : String) : Flowable :=
  Flowable.table
    [[Flowable.cellGroup
        [Flowable.para (fontTag color ("<b>" ++ title ++ "</b>")) layer_title_style,
         Flowable.spacer 1 3,
         Flowable.para (replaceNewlines body) layer_body_style]]]
    [PAGE_W - 1.4 * inch] (some [none])
    [StyleCmd.mk "BACKGROUND" [StyleArg.coord 0 0, StyleArg.coord 0 0, StyleArg.col SURFACE_CARD],
     StyleCmd.mk "BOX" [StyleArg.coord 0 0, StyleArg.coord 0 0, StyleArg.num 2, StyleArg.col color],
     StyleCmd.mk "TOPPADDING" [StyleArg.coord 0 0, StyleArg.coord 0 0, StyleArg.num 10],
     StyleCmd.mk "BOTTOMPADDING" [StyleArg.coord 0 0, StyleArg.coord 0 0, StyleArg.num 10],
     StyleCmd.mk "LEFTPADDING" [StyleArg.coord 0 0, StyleArg.coord 0 0, StyleArg.num 12],
     StyleCmd.mk "RIGHTPADDING" [StyleArg.coord 0 0, StyleArg.coord 0 0, StyleArg.num 12],
     StyleCmd.mk "VALIGN" [StyleArg.coord 0 0, StyleArg.coord 0 0, StyleArg.str "MIDDLE"],
     StyleCmd.mk "ALIGN" [StyleArg.coord 0 0, StyleArg.coord 0 0, StyleArg.str "CENTER"]]

/-- Down-arrow separator between layer panels (source lines 322-332). -/
def layerArrowTable : Flowable :=
  Flowable.table [[Flowable.para "&#8595;" small_arrow_style]]
    [PAGE_W - 1.4 * inch] (some [some (0.22 * inch)]) centerCellCmds

def page3 : List Flowable :=
  [Flowable.para "System Architecture" title_style,
   Flowable.para "Layered architecture from clients to blockchain" subtitle_style] ++
    (layers.enum.map (fun p =>
      layerPanel p.2.1 p.2.2.1 p.2.2.2 ::
        (if p.1 < layers.length - 1 then [layerArrowTable] else []))).flatten

-- ============================================================
-- PAGE 4: Revenue Flow (source lines 340-491)
-- ============================================================

def panelCmds1213 (frame : Color) : List StyleCmd :=
  [StyleCmd.mk "BACKGROUND" [StyleArg.coord 0 0, StyleArg.coord 0 0, StyleArg.col SURFACE_CARD],
   StyleCmd.mk "BOX" [StyleArg.coord 0 0, StyleArg.coord 0 0, StyleArg.num 2, StyleArg.col frame],
   StyleCmd.mk "TOPPADDING" [StyleArg.coord 0 0, StyleArg.coord 0 0, StyleArg.num 10],
   StyleCmd.mk "BOTTOMPADDING" [StyleArg.coord 0 0, StyleArg.coord 0 0, StyleArg.num 10],
   StyleCmd.mk "LEFTPADDING" [StyleArg.coord 0 0, StyleArg.coord 0 0, StyleArg.num 12],
   StyleCmd.mk "RIGHTPADDING" [StyleArg.coord 0 0, StyleArg.coord 0 0, StyleArg.num 12],
   StyleCmd.mk "VALIGN" [StyleArg.coord 0 0, StyleArg.coord 0 0, StyleArg.str "MIDDLE"],
   StyleCmd.mk "ALIGN" [StyleArg.coord 0 0, StyleArg.coord 0 0, StyleArg.str "CENTER"]]

def player_cell : List Flowable :=
  [Flowable.para "<font color=\"#06b6d4\"><b>Player / Bot</b></font>" layer_title_style,
   Flowable.spacer 1 3,
   Flowable.para "Purchases game items, enters tournaments,<br/>buys cosmetics with MOLT tokens"
     layer_body_style]

def playerTable : Flowable :=
  Flowable.table [[Flowable.cellGroup player_cell]] [PAGE_W - 1.4 * inch] none
    (panelCmds1213 (HexColor "#06b6d4"))

/-- The MOLT-payment arrow between the player and the contract (lines 364-373). -/
def moltArrowTable : Flowable :=
  Flowable.table [[Flowable.para "&#8595;  MOLT Payment  &#8595;" small_arrow_style]]
    [PAGE_W - 1.4 * inch] (some [some (0.3 * inch)]) centerCellCmds

def contract_cell : List Flowable :=
  [Flowable.para "<font color=\"#f59e0b\"><b>GameMarketplace Smart Contract</b></font>"
     layer_title_style,
   Flowable.spacer 1 3,
   Flowable.para "On-chain escrow &amp; automatic split on Base L2" layer_body_style]

def contractTable : Flowable :=
  Flowable.table [[Flowable.cellGroup contract_cell]] [PAGE_W - 1.4 * inch] none
    (panelCmds1213 AMBER)

/-- The 85/15 split-label table (source lines 397-414). -/
def split_label : Flowable :=
  Flowable.table
    [[Flowable.para "&#8601;  85% Creator Share" splitLeftStyle,
      Flowable.para "15% Platform Fee  &#8600;" splitRightStyle]]
    [(PAGE_W - 1.4 * inch) / 2, (PAGE_W - 1.4 * inch) / 2] (some [some (0.3 * inch)])
    [StyleCmd.mk "ALIGN" [StyleArg.coord 0 0, StyleArg.coord (-1) (-1), StyleArg.str "CENTER"],
     StyleCmd.mk "VALIGN" [StyleArg.coord 0 0, StyleArg.coord (-1) (-1), StyleArg.str "MIDDLE"]]

def creator_cell : List Flowable :=
  [Flowable.para "<font color=\"#22c55e\"><b>Game Creator</b></font>" layer_title_style,
   Flowable.spacer 1 3,
   Flowable.para "85% of all purchases<br/>Direct to wallet, instant<br/>No minimum payout"
     layer_body_style]

def platform_cell : List Flowable :=
  [Flowable.para "<font color=\"#ff6b6b\"><b>Platform Treasury</b></font>" layer_title_style,
   Flowable.spacer 1 3,
   Flowable.para "15% platform fee<br/>Funds: tournaments, infra,<br/>development, moderation"
     layer_body_style]

/-- The two destination boxes side by side (source lines 430-443). -/
def destinationsTable : Flowable :=
  Flowable.table [[Flowable.cellGroup creator_cell, Flowable.cellGroup platform_cell]]
    [(PAGE_W - 1.8 * inch) / 2, (PAGE_W - 1.8 * inch) / 2] none
    [StyleCmd.mk "BACKGROUND" [StyleArg.coord 0 0, StyleArg.coord 0 0, StyleArg.col SURFACE_CARD],
     StyleCmd.mk "BACKGROUND" [StyleArg.coord 1 0, StyleArg.coord 1 0, StyleArg.col SURFACE_CARD],
     StyleCmd.mk "BOX" [StyleArg.coord 0 0, StyleArg.coord 0 0, StyleArg.num 2, StyleArg.col GREEN],
     StyleCmd.mk "BOX" [StyleArg.coord 1 0, StyleArg.coord 1 0, StyleArg.num 2, StyleArg.col CORAL],
     StyleCmd.mk "TOPPADDING" [StyleArg.coord 0 0, StyleArg.coord (-1) (-1), StyleArg.num 10],
     StyleCmd.mk "BOTTOMPADDING" [StyleArg.coord 0 0, StyleArg.coord (-1) (-1), StyleArg.num 10],
     StyleCmd.mk "LEFTPADDING" [StyleArg.coord 0 0, StyleArg.coord (-1) (-1), StyleArg.num 12],
     StyleCmd.mk "RIGHTPADDING" [StyleArg.coord 0 0, StyleArg.coord (-1) (-1), StyleArg.num 12],
     StyleCmd.mk "VALIGN" [StyleArg.coord 0 0, StyleArg.coord (-1) (-1), StyleArg.str "MIDDLE"],
     StyleCmd.mk "ALIGN" [StyleArg.coord 0 0, StyleArg.coord (-1) (-1), StyleArg.str "CENTER"]]

def streams : List (String × String) :=
  [("Tournament Entry Fees", "Bots pay MOLT to enter\nPrize pool: 50/25/15/10 split"),
   ("Marketplace Cosmetics", "Skins, badges, effects\nCreator-made virtual goods"),
   ("Premium Submolts", "Exclusive communities\nGated access via MOLT"),
   ("Spectator Tips", "Watch bot vs bot matches\nTip favorite competitors")]

/-- The stream cells loop (source lines 461-475). -/
def stream_cells : List Flowable :=
  streams.map (fun p =>
    Flowable.cellGroup
      [Flowable.para ("<b>" ++ p.1 ++ "</b>") streamTitleStyle,
       Flowable.spacer 1 3,
       Flowable.para (replaceNewlines p.2) streamBodyStyle])

def streamsTable : Flowable :=
  Flowable.table [stream_cells] (List.replicate 4 ((PAGE_W - 1.8 * inch) / 4)) none
    [StyleCmd.mk "BACKGROUND" [StyleArg.coord 0 0, StyleArg.coord (-1) (-1), StyleArg.col SURFACE_CARD],
     StyleCmd.mk "BOX" [StyleArg.coord 0 0, StyleArg.coord 0 0, StyleArg.num 1, StyleArg.col TEAL],
     StyleCmd.mk "BOX" [StyleArg.coord 1 0, StyleArg.coord 1 0, StyleArg.num 1, StyleArg.col TEAL],
     StyleCmd.mk "BOX" [StyleArg.coord 2 0, StyleArg.coord 2 0, StyleArg.num 1, StyleArg.col TEAL],
     StyleCmd.mk "BOX" [StyleArg.coord 3 0, StyleArg.coord 3 0, StyleArg.num 1, StyleArg.col TEAL],
     StyleCmd.mk "TOPPADDING" [StyleArg.coord 0 0, StyleArg.coord (-1) (-1), StyleArg.num 8],
     StyleCmd.mk "BOTTOMPADDING" [StyleArg.coord 0 0, StyleArg.coord (-1) (-1), StyleArg.num 8],
     StyleCmd.mk "LEFTPADDING" [StyleArg.coord 0 0, StyleArg.coord (-1) (-1), StyleArg.num 6],
     StyleCmd.mk "RIGHTPADDING" [StyleArg.coord 0 0, StyleArg.coord (-1) (-1), StyleArg.num 6],
     StyleCmd.mk "VALIGN" [StyleArg.coord 0 0, StyleArg.coord (-1) (-1), StyleArg.str "TOP"],
     StyleCmd.mk "ALIGN" [StyleArg.coord 0 0, StyleArg.coord (-1) (-1), StyleArg.str "CENTER"]]

def page4 : List Flowable :=
  [Flowable.para "Revenue Flow" title_style,
   Flowable.para "How MOLT tokens flow through the Moltblox economy" subtitle_style,
   playerTable,
   Flowable.spacer 1 4, moltArrowTable, Flowable.spacer 1 4,
   contractTable,
   Flowable.spacer 1 4, split_label, Flowable.spacer 1 4,
   destinationsTable,
   Flowable.spacer 1 20,
   Flowable.para "Additional Revenue Streams" revTitleStyle,
   streamsTable]

/-- The fully assembled story, in source append order: the four page contents
with a page break after each of the first three (source lines 100-491). -/
def story : List Flowable :=
  page1 ++ [Flowable.pageBreak] ++ page2 ++ [Flowable.pageBreak] ++
    page3 ++ [Flowable.pageBreak] ++ page4

-- ============================================================
-- Script semantics: statements, effects, execution
-- ============================================================

/-- A Python run-time error (the exception's rendering). -/
abbrev Err := String

/-- Run-time context of one execution: the directory the script file lives in
(which determines `os.path.dirname(os.path.abspath(__file__))`), the command
line, and the process environment.  The script consults only the first. -/
structure ScriptInput where
  scriptDir : String
  argv : List String
  env : List (String × String)

/-- Mutable state of the module-level code: the `story` list being appended
to, and the file system the build flushes into (an association list from path
to byte content). -/
structure PyState where
  story : List Flowable
  fs : List (String × List Nat)

/-- Observable effects a Python statement of this script could perform.  The
constructors beyond the first four never occur in the script's trace; they
exist so that their absence is a statement about the program, not about the
vocabulary. -/
inductive Event where
  | buildCall (path : String) (st : List Flowable) (onFirstPage onLaterPages : List CanvasOp)
  | fileWrite (path : String) (content : List Nat)
  | stdoutWrite (s : String)
  | statFile (path : String)
  | readEnvVar (name : String)
  | readFileEv (path : String)
  | readArgv
  | netRequest (url : String)
  | spawnThread
  | spawnProcess
  | acquireLock
  | sleepFor (seconds : ℚ)

/-- Code point of a character, the byte model of serialized text. -/
def charByte (c : Char) : Nat := c.toNat

/-- The PDF header signature bytes: `%PDF`. -/
def pdfSignature : List Nat := "%PDF".data.map charByte

def pdfHeaderBytes : List Nat := "%PDF-1.4\n".data.map charByte

/-- Flat per-flowable byte contribution used by the build model. -/
def flowableBytes : Flowable → List Nat
  | Flowable.para t _ => t.data.map charByte
  | Flowable.spacer _ _ => [32]
  | Flowable.pageBreak => [12]
  | Flowable.table _ _ _ _ => [84]
  | Flowable.cellGroup _ => [71]
  | Flowable.cellStr s => s.data.map charByte

/-- Modelled from the spec: `doc.build` is the external document-layout
library's entry point ("providing page/table/paragraph primitives and final
binary serialization"), absent from this repository.  Per the spec it
serializes the assembled story into one PDF byte stream, beginning with the
standard PDF header signature; the exact body bytes are out of scope, so the
body here is a flat serialization of the story's text content. -/
def buildOutput (st : List Flowable) : List Nat :=
  pdfHeaderBytes ++ (st.map flowableBytes).flatten ++ ("%%EOF".data.map charByte)

/-- Statements of the module-level script, as a sequential language.
`tryExcept` is in the language (so that its absence from this script is a
fact about the script) but is never used by it. -/
inductive Stmt where
  | skip
  | append (f : Flowable)
  | buildDoc (path : String) (onFirstPage onLaterPages : List CanvasOp)
  | printGenerated (path : String)
  | printSize (path : String)
  | tryExcept (body handler : Stmt)
  | seq (a b : Stmt)

/-- Association-list file system lookup (`os.path.getsize` resolution). -/
def lookupFS : List (String × List Nat) → String → Option (List Nat)
  | [], _ => none
  | kv :: rest, p => if kv.1 = p then some kv.2 else lookupFS rest p

/-- Python `f-string` thousands grouping for a natural number (`{n:,}`). -/
def commaFmt (n : Nat) : String :=
  String.mk ((((Nat.toDigits 10 n).reverse.enum.map
    (fun p => if p.1 ≠ 0 ∧ p.1 % 3 = 0 then [',', p.2] else [p.2])).flatten).reverse)

/-- Executable semantics of statements.  `buildOutcome` is the external
library's behavior for this run: `none` means the build succeeds and flushes
the file; `some e` means it raises `e`.  An uncaught error aborts the rest of
the program. -/
def exec (buildOutcome : Option Err) : Stmt → PyState → Except Err (PyState × List Event)
  | Stmt.skip, st => Except.ok (st, [])
  | Stmt.append f, st => Except.ok (PyState.mk (st.story ++ [f]) st.fs, [])
  | Stmt.buildDoc path onF onL, st =>
      match buildOutcome with
      | some e => Except.error e
      | none =>
          Except.ok (PyState.mk st.story ((path, buildOutput st.story) :: st.fs),
            [Event.buildCall path st.story onF onL,
             Event.fileWrite path (buildOutput st.story)])
  | Stmt.printGenerated p, st =>
      Except.ok (st, [Event.stdoutWrite ("Generated: " ++ p)])
  | Stmt.printSize p, st =>
      match lookupFS st.fs p with
      | some bytes =>
          Except.ok (st,
            [Event.statFile p,
             Event.stdoutWrite ("Size: " ++ commaFmt bytes.length ++ " bytes")])
      | none => Except.error ("FileNotFoundError: " ++ p)
  | Stmt.tryExcept body handler, st =>
      match exec buildOutcome body st with
      | Except.error _ => exec buildOutcome handler st
      | Except.ok r => Except.ok r
  | Stmt.seq a b, st =>
      match exec buildOutcome a st with
      | Except.error e => Except.error e
      | Except.ok (st1, evs1) =>
          match exec buildOutcome b st1 with
          | Except.error e => Except.error e
          | Except.ok (st2, evs2) => Except.ok (st2, evs1 ++ evs2)

/-- Right-nested sequencing of a statement list. -/
def seqAll (l : List Stmt) : Stmt := l.foldr Stmt.seq Stmt.skip

/-- The whole module-level script: append every story element in order, then
`doc.build(story, onFirstPage=page_bg, onLaterPages=page_bg)`, then the two
prints (the second stats the written file's size).  Source lines 100-499. -/
def scriptProgram (inp : ScriptInput) : Stmt :=
  seqAll (story.map Stmt.append ++
    [Stmt.buildDoc (doc inp.scriptDir).filename page_bg page_bg,
     Stmt.printGenerated (output_path inp.scriptDir),
     Stmt.printSize (output_path inp.scriptDir)])

def initState : PyState := PyState.mk [] []

def runScript (inp : ScriptInput) (o : Option Err) : Except Err (PyState × List Event) :=
  exec o (scriptProgram inp) initState

/-- The final state of a successful run. -/
def finalState (inp : ScriptInput) : PyState :=
  PyState.mk story [(output_path inp.scriptDir, buildOutput story)]

/-- The effect trace of a successful run. -/
def finalTrace (inp : ScriptInput) : List Event :=
  [Event.buildCall (output_path inp.scriptDir) story page_bg page_bg,
   Event.fileWrite (output_path inp.scriptDir) (buildOutput story),
   Event.stdoutWrite ("Generated: " ++ output_path inp.scriptDir),
   Event.statFile (output_path inp.scriptDir),
   Event.stdoutWrite ("Size: " ++ commaFmt (buildOutput story).length ++ " bytes")]

/-- Trace of the successful run (empty when the run errors). -/
def traceOf (inp : ScriptInput) : List Event :=
  match runScript inp none with
  | Except.ok (_, evs) => evs
  | Except.error _ => []

/-- Story list held by the final state of a successful run. -/
def assembledStory (inp : ScriptInput) : List Flowable :=
  match runScript inp none with
  | Except.ok (st, _) => st.story
  | Except.error _ => []

/-- File system after a successful run. -/
def fsOf (inp : ScriptInput) : List (String × List Nat) :=
  match runScript inp none with
  | Except.ok (st, _) => st.fs
  | Except.error _ => []

/-- Linearization of a statement tree. -/
def stmtList : Stmt → List Stmt
  | Stmt.seq a b => stmtList a ++ stmtList b
  | Stmt.skip => []
  | s => [s]

/-- Whether a statement tree contains any exception handler. -/
def hasTryExcept : Stmt → Bool
  | Stmt.seq a b => hasTryExcept a || hasTryExcept b
  | Stmt.tryExcept _ _ => true
  | _ => false

-- ============================================================
-- Inspection helpers for the claims
-- ============================================================

def isPageBreak : Flowable → Bool
  | Flowable.pageBreak => true
  | _ => false

/-- Split a flowable list at its page breaks; always one segment more than
there are breaks, and the breaks themselves belong to no segment. -/
def splitStory : List Flowable → List (List Flowable)
  | [] => [[]]
  | f :: rest =>
      match f, splitStory rest with
      | Flowable.pageBreak, segs => [] :: segs
      | g, [] => [[g]]
      | g, s :: ss => (g :: s) :: ss

/-- The n-th page segment of the assembled story. -/
def storySeg (n : Nat) : List Flowable := (splitStory story).getD n []

def paraText? : Flowable → Option String
  | Flowable.para t _ => some t
  | _ => none

/-- Paragraph and string texts of one table cell (cells of this script nest
paragraphs at most one level deep). -/
def cellTexts : Flowable → List String
  | Flowable.cellStr s => [s]
  | Flowable.cellGroup fs => fs.filterMap paraText?
  | f => (paraText? f).toList

/-- All paragraph/string texts inside a table's data matrix. -/
def tableTexts : Flowable → List String
  | Flowable.table data _ _ _ => (data.map (fun row => (row.map cellTexts).flatten)).flatten
  | _ => []

def isTable : Flowable → Bool
  | Flowable.table _ _ _ _ => true
  | _ => false

/-- A down-arrow separator: a one-cell table holding exactly the paragraph
`&#8595;` (the pattern of the three between-panel arrow tables). -/
def isDownArrowSep : Flowable → Bool
  | Flowable.table [[Flowable.para t _]] _ _ _ => t.data == "&#8595;".data
  | _ => false

/-- A content panel: any table that is not a down-arrow separator. -/
def isPanelTable (f : Flowable) : Bool := isTable f && !isDownArrowSep f

/-- The panel/separator skeleton of a segment: `true` for a panel table,
`false` for a separator, other flowables dropped. -/
def panelSepPattern (l : List Flowable) : List Bool :=
  l.filterMap (fun f =>
    if isPanelTable f = true then some true
    else if isDownArrowSep f = true then some false
    else none)

def isBoxCell : Flowable → Bool
  | Flowable.cellGroup _ => true
  | _ => false

def isRightArrowPara : Flowable → Bool
  | Flowable.para t _ => t.data == "&#8594;".data
  | _ => false

/-- Boxes at even indices, right-arrow paragraphs at odd indices. -/
def rowAltPattern (l : List Flowable) : Bool :=
  l.enum.all (fun p => if p.1 % 2 = 0 then isBoxCell p.2 else isRightArrowPara p.2)

def charsStartWith : List Char → List Char → Bool
  | [], _ => true
  | _ :: _, [] => false
  | p :: ps, c :: cs => p == c && charsStartWith ps cs

def charsContain (p : List Char) : List Char → Bool
  | [] => p.isEmpty
  | c :: cs => charsStartWith p (c :: cs) || charsContain p cs

/-- Substring test used to locate the revenue figures in literal content. -/
def strHasSub (s pat : String) : Bool := charsContain pat.data s.data

def writePathOf : Event → Option String
  | Event.fileWrite p _ => some p
  | _ => none

/-- Paths of all file writes in a trace. -/
def writePaths (t : List Event) : List String := t.filterMap writePathOf

/-- Events that read any run-time input (CLI, environment, files, network). -/
def isInputReadEv : Event → Bool
  | Event.readEnvVar _ => true
  | Event.readFileEv _ => true
  | Event.readArgv => true
  | Event.netRequest _ => true
  | _ => false

/-- Threading, locking or timing effects. -/
def isConcurrencyEv : Event → Bool
  | Event.spawnThread => true
  | Event.spawnProcess => true
  | Event.acquireLock => true
  | Event.sleepFor _ => true
  | _ => false

def isFileWriteEv : Event → Bool
  | Event.fileWrite _ _ => true
  | _ => false

def isStdoutEv : Event → Bool
  | Event.stdoutWrite _ => true
  | _ => false

def isStatEv : Event → Bool
  | Event.statFile _ => true
  | _ => false

def isBuildStmt : Stmt → Bool
  | Stmt.buildDoc _ _ _ => true
  | _ => false

def isAppendStmt : Stmt → Bool
  | Stmt.append _ => true
  | _ => false

/-- The arguments of a build-call event. -/
def buildCallData : Event → Option (String × List Flowable × List CanvasOp × List CanvasOp)
  | Event.buildCall p st onF onL => some (p, st, onF, onL)
  | _ => none

-- ============================================================
-- Helper lemmas
-- ============================================================

/-- Executing a block of story appends extends the story and emits nothing;
execution then continues with the rest of the program. -/
theorem exec_append_stmts (o : Option Err) (fs : List Flowable) (k : Stmt) (st : PyState) :
    exec o ((fs.map Stmt.append).foldr Stmt.seq k) st
      = exec o k (PyState.mk (st.story ++ fs) st.fs) := by
  induction fs generalizing st with
  | nil => simp
  | cons f fs ih =>
      simp only [List.map_cons, List.foldr_cons, exec, ih, List.append_assoc,
        List.singleton_append, List.nil_append]
      cases h : exec o k (PyState.mk (st.story ++ f :: fs) st.fs) with
      | error e => rfl
      | ok r => rfl

/-- A successful run ends in `finalState` with trace `finalTrace`: the story
fully assembled, one file written at the output path, two status prints. -/
theorem runScript_none (inp : ScriptInput) :
    runScript inp none = Except.ok (finalState inp, finalTrace inp) := by
  unfold runScript scriptProgram seqAll
  rw [List.foldr_append, exec_append_stmts]
  simp [exec, initState, lookupFS, finalState, finalTrace, doc, output_path]

theorem traceOf_eq (inp : ScriptInput) : traceOf inp = finalTrace inp := by
  unfold traceOf
  rw [runScript_none]

theorem fsOf_eq (inp : ScriptInput) :
    fsOf inp = [(output_path inp.scriptDir, buildOutput story)] := by
  unfold fsOf
  rw [runScript_none]
  rfl

theorem assembledStory_eq (inp : ScriptInput) : assembledStory inp = story := by
  unfold assembledStory
  rw [runScript_none]
  rfl

-- ============================================================
-- Claims
-- ============================================================

/-- C1: Running the script to completion produces a non-empty file at the
expected output path (`moltblox-flowcharts.pdf` in the script's own
directory) whose content begins with the PDF header signature `%PDF`.  The
serialization itself is the external library's, modelled from the spec by
`buildOutput`. -/
theorem c1_run_produces_pdf_file (inp : ScriptInput) :
    lookupFS (fsOf inp) (joinPath inp.scriptDir "moltblox-flowcharts.pdf")
      = some (buildOutput story) ∧
    buildOutput story ≠ [] ∧
    (buildOutput story).take 4 = pdfSignature := by
  refine ⟨?_, ?_, rfl⟩
  · rw [fsOf_eq]
    simp [lookupFS, output_path, joinPath]
  · intro h
    have hh : (buildOutput story).head? = some 37 := rfl
    rw [h] at hh
    exact Option.noConfusion hh

/-- C2: The assembled story holds exactly four pages of literal content in
order (User Journey Flow, Implementation Roadmap, System Architecture,
Revenue Flow), separated by exactly three page breaks, and each page segment
begins with its title paragraph. -/
theorem c2_four_pages_three_breaks :
    story.countP isPageBreak = 3 ∧
    (splitStory story).length = 4 ∧
    (splitStory story).map List.head? =
      [some (Flowable.para "User Journey Flow" title_style),
       some (Flowable.para "Implementation Roadmap" title_style),
       some (Flowable.para "System Architecture" title_style),
       some (Flowable.para "Revenue Flow" title_style)] :=
  ⟨rfl, rfl, rfl⟩

/-- C3: Every execution writes exactly one file, at the fixed path
`join(scriptDir, 'moltblox-flowcharts.pdf')`; the command line and
environment influence neither the run nor the path, and the trace reads no
CLI, environment, file or network input at all. -/
theorem c3_fixed_output_path (inp inp2 : ScriptInput) (h : inp2.scriptDir = inp.scriptDir) :
    writePaths (traceOf inp) = [joinPath inp.scriptDir "moltblox-flowcharts.pdf"] ∧
    output_path inp.scriptDir = joinPath inp.scriptDir "moltblox-flowcharts.pdf" ∧
    runScript inp2 none = runScript inp none ∧
    (traceOf inp).countP isInputReadEv = 0 := by
  refine ⟨?_, rfl, ?_, ?_⟩
  · rw [traceOf_eq]
    rfl
  · rw [runScript_none, runScript_none]
    simp [finalState, finalTrace, output_path, h]
  · rw [traceOf_eq]
    rfl

/-- Witness for C3 at concrete inputs that differ in argv and environment. -/
theorem c3_fixed_output_path_witness :
    writePaths (traceOf (ScriptInput.mk "/repo/docs" [] [])) =
      [joinPath "/repo/docs" "moltblox-flowcharts.pdf"] ∧
    output_path "/repo/docs" = joinPath "/repo/docs" "moltblox-flowcharts.pdf" ∧
    runScript (ScriptInput.mk "/repo/docs" ["--verbose"] [("HOME", "/root")]) none =
      runScript (ScriptInput.mk "/repo/docs" [] []) none ∧
    (traceOf (ScriptInput.mk "/repo/docs" [] [])).countP isInputReadEv = 0 :=
  c3_fixed_output_path (ScriptInput.mk "/repo/docs" [] [])
    (ScriptInput.mk "/repo/docs" ["--verbose"] [("HOME", "/root")]) rfl

/-- C4: The script contains no exception handling, so an error raised by the
external build (or the runtime) propagates uncaught and terminates the
script. -/
theorem c4_no_handlers_errors_propagate (inp : ScriptInput) (e : Err) :
    hasTryExcept (scriptProgram inp) = false ∧
    runScript inp (some e) = Except.error e := by
  refine ⟨rfl, ?_⟩
  unfold runScript scriptProgram seqAll
  rw [List.foldr_append, exec_append_stmts]
  simp [exec]

/-- C5: `doc.build` is invoked exactly once, after all content assembly; it
receives the fully assembled story with the page-background callback for both
the first and all later pages, and no story element is appended after it. -/
theorem c5_build_called_once_after_assembly (inp : ScriptInput) :
    (stmtList (scriptProgram inp)).countP isBuildStmt = 1 ∧
    ((stmtList (scriptProgram inp)).dropWhile (fun s => !isBuildStmt s)).tail.countP
        isAppendStmt = 0 ∧
    (traceOf inp).filterMap buildCallData =
      [(output_path inp.scriptDir, story, page_bg, page_bg)] := by
  refine ⟨rfl, rfl, ?_⟩
  rw [traceOf_eq]
  rfl

/-- C6: Content assembly is deterministic: any two executions, whatever their
command line and environment, hold the same assembled story, namely the
literal `story`. -/
theorem c6_deterministic_assembly (inp1 inp2 : ScriptInput) :
    assembledStory inp1 = assembledStory inp2 ∧ assembledStory inp1 = story :=
  ⟨(assembledStory_eq inp1).trans (assembledStory_eq inp2).symm, assembledStory_eq inp1⟩

/-- C7: In the journey grid, the guard `step_idx < len(journey_steps)` holds
for all nine grid positions (9 steps, 3 rows of 3), so the empty-cell branch
is never taken; every table row has exactly 5 entries with boxes at even and
arrow paragraphs at odd indices, and the column-width list always has the
same length as the row. -/
theorem c7_journey_grid_safe :
    journey_steps.length = 9 ∧
    ((List.range 3).all (fun r =>
      (List.range 3).all (fun c => decide (r * 3 + c < journey_steps.length)))) = true ∧
    ((List.range 3).all (fun r =>
      (journeyRowData r).all (fun f => isBoxCell f && cellTruthy f))) = true ∧
    ((List.range 3).all (fun r => decide ((journeyFullRow r).length = 5))) = true ∧
    ((List.range 3).all (fun r =>
      decide ((journeyColWidths r).length = (journeyFullRow r).length))) = true ∧
    ((List.range 3).all (fun r => rowAltPattern (journeyFullRow r))) = true :=
  ⟨rfl, rfl, rfl, rfl, rfl, rfl⟩

/-- C8: In each stacked-panel sequence (3 journey rows on page 1, 5 roadmap
phases on page 2, 6 architecture layers on page 3) a down-arrow separator
stands between every two consecutive panels and never after the last, so the
separator counts are 2, 4 and 5 — one less than the panel counts. -/
theorem c8_separators_between_panels :
    panelSepPattern (storySeg 0) = [true, false, true, false, true] ∧
    panelSepPattern (storySeg 1) =
      [true, false, true, false, true, false, true, false, true] ∧
    panelSepPattern (storySeg 2) =
      [true, false, true, false, true, false, true, false, true, false, true] ∧
    (storySeg 0).countP isDownArrowSep = 2 ∧
    (storySeg 1).countP isDownArrowSep = phases.length - 1 ∧
    (storySeg 2).countP isDownArrowSep = layers.length - 1 ∧
    phases.length = 5 ∧ layers.length = 6 :=
  ⟨rfl, rfl, rfl, rfl, rfl, rfl, rfl, rfl⟩

/-- C9: The revenue figures are mutually consistent: journey step 7 states
85% for the creator, the split label states 85% creator share and 15%
platform fee, the Game Creator box states 85% and the Platform Treasury box
15%, and the two percentages sum to 100. -/
theorem c9_revenue_split_consistent :
    strHasSub (journey_steps.getD 6 ("", "")).2 "85%" = true ∧
    tableTexts split_label =
      ["&#8601;  85% Creator Share", "15% Platform Fee  &#8600;"] ∧
    (creator_cell.filterMap paraText?).any (fun t => strHasSub t "Game Creator") = true ∧
    (creator_cell.filterMap paraText?).any (fun t => strHasSub t "85%") = true ∧
    (platform_cell.filterMap paraText?).any (fun t => strHasSub t "Platform Treasury") = true ∧
    (platform_cell.filterMap paraText?).any (fun t => strHasSub t "15%") = true ∧
    85 + 15 = 100 :=
  ⟨rfl, rfl, rfl, rfl, rfl, rfl, rfl⟩

/-- C10: The run's effect trace spawns no thread or process, takes no lock,
sleeps on no timeout, performs exactly one file write (the build's flush),
and everything after that write is only console output and the size stat. -/
theorem c10_single_threaded_trace (inp : ScriptInput) :
    (traceOf inp).countP isConcurrencyEv = 0 ∧
    (traceOf inp).countP isFileWriteEv = 1 ∧
    (((traceOf inp).dropWhile (fun ev => !isFileWriteEv ev)).tail.all
      (fun ev => isStdoutEv ev || isStatEv ev)) = true := by
  refine ⟨?_, ?_, ?_⟩ <;> rw [traceOf_eq] <;> rfl
